import Mathlib

/-!
Shallow embedding of the devpush Deployment Orchestration Engine
(`app/services/deployment.py`, `app/services/reconcile.py`,
`app/workers/monitor.py`, `app/workers/tasks/deployment.py`).

Database rows are modelled as Lean structures; the async functions are
modelled as pure state transformers that also return the list of external
actions they perform (container stops, job enqueues, job aborts).  Docker
calls whose outcome the code branches on are passed in as explicit inputs
(`DockerGet`, `Resolution`).
-/

namespace Devpush

/-- Terminal outcome of a deployment.  The `conclusion` column holds one of
these three values or NULL (spec section 3: "conclusion (terminal outcome or
null)"); it is modelled as `Option Conclusion`. -/
inductive Conclusion
  | succeeded
  | failed
  | canceled
deriving DecidableEq, Repr

/-- The `error` JSON column written by the fail path:
`{"status": stage, "message": reason}`. -/
structure DeployError where
  status : String
  message : String
deriving DecidableEq, Repr

/-- Commit metadata stored on the deployment (`commit_meta` JSON column). -/
structure CommitMeta where
  author : String
  message : String
deriving DecidableEq, Repr

/-- Modelled from the spec: a project environment entry
`{id, slug, branch, name}` as exposed by the project record (spec section 6);
the `models.py` defining `Project.get_environment_by_id` is not part of the
sources, only its callers are. -/
structure EnvironmentInfo where
  id : String
  slug : String
deriving DecidableEq, Repr

/-- The slice of the project record the engine reads. -/
structure Project where
  id : String
  slug : String
  team_id : String
  environments : List EnvironmentInfo
deriving DecidableEq, Repr

/-- The slice of the application settings the engine reads. -/
structure Settings where
  deploy_domain : String
  url_scheme : String
  server_ip : Option String
  service_uid : Nat
  service_gid : Nat
  container_delete_grace_seconds : Nat
deriving DecidableEq, Repr

/-- A deployment row.  Timestamps are abstract ticks (`Nat`);
`created_at` is kept as its ISO string because the code only ever
concatenates it. -/
structure Deployment where
  id : String
  project_id : String
  environment_id : String
  branch : String
  commit_sha : String
  created_at : String
  url : String
  hostname : String
  repo_provider : String
  repo_base_url : String
  repo_full_name : String
  commit_meta : Option CommitMeta
  env_vars : List (String × String)
  status : String
  conclusion : Option Conclusion
  error : Option DeployError
  container_id : Option String
  container_status : Option String
  job_id : Option String
  observed_status : Option String
  observed_exit_code : Option Int
  observed_at : Option Nat
  observed_last_seen_at : Option Nat
  observed_missing_count : Option Nat
deriving DecidableEq, Repr

/-- An alias row.  `deployment_id` and `previous_deployment_id` are both
nullable columns (the cleanup task filters on `Alias.deployment_id.isnot(None)`
and `rollback` emits `alias.previous_deployment_id or ""`). -/
structure Alias where
  id : String
  subdomain : String
  deployment_id : Option String
  previous_deployment_id : Option String
  type : String
  value : Option String
  environment_id : Option String
deriving DecidableEq, Repr

/-- Outcome of `docker_client.containers.get` as the code branches on it:
success, a 404 `DockerError`, or any other `DockerError`. -/
inductive DockerGet
  | found
  | notFound
  | errOther
deriving DecidableEq, Repr

/-- External side effects the engine performs, in order. -/
inductive Action
  | stop (containerId : String)
  | deleteNow (containerId : String)
  | enqueue (jobName : String) (args : List String) (deferBy : Option Nat)
  | abortJob (jobId : String)
deriving DecidableEq, Repr

/-- Embedding of `fail_deployment` (`app/workers/tasks/deployment.py`).
Returns the final deployment row and the external actions performed.  The
source commits an intermediate `status="fail"` before the container cleanup
and then the terminal `status="completed", conclusion="failed"`; the
embedding returns the final row. -/
def fail_deployment (s : Settings) (d : Deployment) (stage : String)
    (reason : Option String) (docker : DockerGet) : Deployment × List Action :=
  if d.conclusion = some Conclusion.canceled then (d, [])
  else if d.conclusion.isSome then (d, [])
  else
    let cleanup : Option String × List Action :=
      match d.container_id with
      | some cid =>
        if cid ≠ "" ∧ d.container_status ≠ some "removed"
            ∧ d.container_status ≠ some "stopped" then
          match docker with
          | .found =>
            (some "stopped",
             [Action.stop cid,
              Action.enqueue "delete_container" [d.id]
                (some s.container_delete_grace_seconds)])
          | .notFound => (some "removed", [])
          | .errOther => (d.container_status, [])
        else (d.container_status, [])
      | none => (d.container_status, [])
    ({d with status := "completed",
             conclusion := some Conclusion.failed,
             error := some ⟨stage, reason.getD "Deployment failed"⟩,
             container_status := cleanup.1}, cleanup.2)

/-- Result of `DeploymentService.cancel`: `raised` carries the exception
message when the guard refuses; otherwise the updated row and actions. -/
structure CancelOutcome where
  raised : Option String
  deployment : Deployment
  actions : List Action
deriving DecidableEq, Repr

/-- The arq-job abort performed by `cancel` when the deployment has a job id
and the job has not already finished (`job_info.success is None`). -/
def cancel_abort_actions (d : Deployment) (jobActive : Bool) : List Action :=
  match d.job_id with
  | some j => if j ≠ "" ∧ jobActive then [Action.abortJob j] else []
  | none => []

/-- Embedding of `DeploymentService.cancel` (`app/services/deployment.py`).
`jobActive` is the `job_info.success is None` check on the arq job. -/
def cancel (s : Settings) (d : Deployment) (jobActive : Bool)
    (docker : DockerGet) : CancelOutcome :=
  if d.status = "finalize" ∨ d.status = "fail" ∨ d.status = "completed"
      ∨ d.conclusion.isSome then
    ⟨some "Deployment is already finalizing, failing, or completed", d, []⟩
  else
    let d1 := {d with status := "completed",
                      conclusion := some Conclusion.canceled}
    let abortActs : List Action := cancel_abort_actions d jobActive
    match d.container_id with
    | some cid =>
      if cid ≠ "" ∧ d.container_status ≠ some "removed"
          ∧ d.container_status ≠ some "stopped" then
        match docker with
        | .found =>
          ⟨none, {d1 with container_status := some "stopped"},
           abortActs ++
             [Action.stop cid,
              Action.enqueue "delete_container" [d.id]
                (some s.container_delete_grace_seconds)]⟩
        | .notFound =>
          ⟨none, {d1 with container_status := some "removed"}, abortActs⟩
        | .errOther => ⟨none, d1, abortActs⟩
      else ⟨none, d1, abortActs⟩
    | none => ⟨none, d1, abortActs⟩

/-- Embedding of the alias swap inside `DeploymentService.rollback`
(`app/services/deployment.py`).  The Python guard is
`if not alias or not alias.previous_deployment_id: raise ValueError(...)`,
so a NULL alias, a NULL `previous_deployment_id` and an empty-string
`previous_deployment_id` all refuse. -/
def rollback (al : Option Alias) : Except String Alias :=
  match al with
  | none => .error "No previous deployment to roll back to."
  | some a =>
    match a.previous_deployment_id with
    | none => .error "No previous deployment to roll back to."
    | some p =>
      if p = "" then .error "No previous deployment to roll back to."
      else .ok {a with deployment_id := some p,
                       previous_deployment_id := a.deployment_id}

/-- Subdomain the rollback path looks up for an environment
(`project.slug` for prod, `{slug}-env-{envslug}` otherwise). -/
def rollback_subdomain (p : Project) (env : EnvironmentInfo) : String :=
  if env.id = "prod" then p.slug else p.slug ++ "-env-" ++ env.slug

/-- Branch sanitization in `get_alias_domains`:
`re.sub(r"[^a-zA-Z0-9-]", "-", branch).lower()`. -/
def sanitize_branch (b : String) : String :=
  (String.mk (b.data.map
    (fun c => if c.isAlphanum ∨ c = '-' then c else '-'))).toLower

/-- The subdomain/domain/url values computed by
`DeploymentService.get_alias_domains`; optional entries mirror the keys the
Python dict may lack. -/
structure AliasDomains where
  branch_subdomain : Option String
  branch_domain : Option String
  branch_url : Option String
  environment_subdomain : Option String
  environment_domain : Option String
  environment_url : Option String
  environment_id_subdomain : String
  environment_id_domain : String
  environment_id_url : String
deriving DecidableEq, Repr

/-- Embedding of `DeploymentService.get_alias_domains`
(`app/services/deployment.py`). -/
def get_alias_domains (s : Settings) (p : Project) (d : Deployment) :
    AliasDomains :=
  let branchSub : Option String :=
    if d.branch ≠ "" then
      let sb := sanitize_branch d.branch
      if sb ≠ "" then some (p.slug ++ "-branch-" ++ sb) else none
    else none
  let envSub : Option String :=
    if d.environment_id = "prod" then some p.slug
    else
      match p.environments.find? (fun e => e.id == d.environment_id) with
      | some e => some (p.slug ++ "-env-" ++ e.slug)
      | none => none
  let envIdSub := p.slug ++ "-env-id-" ++ d.environment_id
  { branch_subdomain := branchSub
    branch_domain := branchSub.map (fun b => b ++ "." ++ s.deploy_domain)
    branch_url := branchSub.map
      (fun b => s.url_scheme ++ "://" ++ b ++ "." ++ s.deploy_domain)
    environment_subdomain := envSub
    environment_domain := envSub.map (fun e => e ++ "." ++ s.deploy_domain)
    environment_url := envSub.map
      (fun e => s.url_scheme ++ "://" ++ e ++ "." ++ s.deploy_domain)
    environment_id_subdomain := envIdSub
    environment_id_domain := envIdSub ++ "." ++ s.deploy_domain
    environment_id_url :=
      s.url_scheme ++ "://" ++ envIdSub ++ "." ++ s.deploy_domain }

/-- One `Alias.update_or_create` call issued by `setup_aliases`. -/
structure AliasUpsert where
  subdomain : String
  deployment_id : String
  type : String
  value : Option String
  environment_id : Option String
deriving DecidableEq, Repr

/-- Embedding of `DeploymentService.setup_aliases`: the branch, environment
and environment-id upserts, in source order. -/
def setup_aliases (s : Settings) (p : Project) (d : Deployment) :
    List AliasUpsert :=
  let ad := get_alias_domains s p d
  (match ad.branch_subdomain with
   | some b => [⟨b, d.id, "branch", some d.branch, none⟩]
   | none => [])
  ++ (match ad.environment_subdomain with
      | some e => [⟨e, d.id, "environment", some d.environment_id,
                    some d.environment_id⟩]
      | none => [])
  ++ [⟨ad.environment_id_subdomain, d.id, "environment_id",
       some d.environment_id, some d.environment_id⟩]

/-- What `finalize_deployment` did: the updated row, the alias upserts, a
flag for the Traefik regeneration, and the enqueued follow-up jobs. -/
structure FinalizeOutcome where
  deployment : Deployment
  aliasUpserts : List AliasUpsert
  traefikUpdated : Bool
  jobs : List Action
deriving DecidableEq, Repr

/-- Embedding of `finalize_deployment` (`app/workers/tasks/deployment.py`).
A deployment whose conclusion is already `canceled` returns before any alias
or routing work.  Note the source passes `error=None` to `update_status`,
which leaves `error` untouched (the update only fires on a non-None value). -/
def finalize_deployment (s : Settings) (p : Project) (d : Deployment) :
    FinalizeOutcome :=
  if d.conclusion = some Conclusion.canceled then ⟨d, [], false, []⟩
  else
    ⟨{d with status := "completed", conclusion := some Conclusion.succeeded},
     setup_aliases s p d, true,
     [Action.enqueue "cleanup_inactive_containers" [d.project_id] none]⟩

/-- Python-dict semantics over association lists: value of the latest
assignment, insertion-ordered keys.  `dict_insert` is one assignment. -/
def dict_insert (m : List (String × String)) (k v : String) :
    List (String × String) :=
  if m.any (fun kv => kv.1 == k) then
    m.map (fun kv => if kv.1 == k then (k, v) else kv)
  else m ++ [(k, v)]

/-- Building a dict from a key/value list, later assignments winning:
the `{var["key"]: var["value"] for var in deployment.env_vars}`
comprehension. -/
def dict_of (l : List (String × String)) : List (String × String) :=
  l.foldl (fun m kv => dict_insert m kv.1 kv.2) []

/-- Dict lookup (`m.get(k)`). -/
def dict_get (m : List (String × String)) (k : String) : Option String :=
  (m.find? (fun kv => kv.1 == k)).map (fun kv => kv.2)

/-- Python `dict.setdefault`: insert only when the key is absent. -/
def dict_setdefault (m : List (String × String)) (k v : String) :
    List (String × String) :=
  if m.any (fun kv => kv.1 == k) then m else m ++ [(k, v)]

/-- The `runtime_vars` dict of `get_runtime_env_vars`, as an
insertion-ordered list.  Entries whose Python value would be `None` carry
`none`; conditionally inserted entries are included only under the source's
conditions.  Keys are pairwise distinct, as in the source dict. -/
def runtime_vars (s : Settings) (p : Project) (d : Deployment) :
    List (String × Option String) :=
  let envSlug : String :=
    match p.environments.find? (fun e => e.id == d.environment_id) with
    | some e => if e.slug ≠ "" then e.slug else d.environment_id
    | none => d.environment_id
  let ad := get_alias_domains s p d
  [("DEVPUSH", some "true"),
   ("DEVPUSH_URL", some d.url),
   ("DEVPUSH_DOMAIN", some d.hostname),
   ("DEVPUSH_TEAM_ID", some p.team_id),
   ("DEVPUSH_PROJECT_ID", some p.id),
   ("DEVPUSH_ENVIRONMENT", some envSlug),
   ("DEVPUSH_DEPLOYMENT_ID", some d.id),
   ("DEVPUSH_DEPLOYMENT_CREATED_AT", some (d.created_at ++ "Z")),
   ("DEVPUSH_GIT_PROVIDER", some d.repo_provider),
   ("DEVPUSH_GIT_BASE_URL", some d.repo_base_url),
   ("DEVPUSH_GIT_REPO", some d.repo_full_name),
   ("DEVPUSH_GIT_REF", some d.branch),
   ("DEVPUSH_GIT_COMMIT_SHA", some d.commit_sha),
   ("PUID", some (toString s.service_uid)),
   ("PGID", some (toString s.service_gid))]
  ++ (match s.server_ip with
      | some ip => if ip ≠ "" then [("DEVPUSH_IP", some ip)] else []
      | none => [])
  ++ (match ad.environment_domain with
      | some v => [("DEVPUSH_DOMAIN_ENVIRONMENT", some v)]
      | none => [])
  ++ (match ad.environment_url with
      | some v => [("DEVPUSH_URL_ENVIRONMENT", some v)]
      | none => [])
  ++ (match ad.branch_domain with
      | some v => [("DEVPUSH_DOMAIN_BRANCH", some v)]
      | none => [])
  ++ (match ad.branch_url with
      | some v => [("DEVPUSH_URL_BRANCH", some v)]
      | none => [])
  ++ (match d.commit_meta with
      | some meta =>
        (if meta.author ≠ ""
         then [("DEVPUSH_GIT_COMMIT_AUTHOR", some meta.author)] else [])
        ++ (if meta.message ≠ ""
            then [("DEVPUSH_GIT_COMMIT_MESSAGE", some meta.message)] else [])
      | none => [])
  ++ (if d.repo_full_name ≠ "" ∧ d.repo_full_name.contains '/' then
        let parts := d.repo_full_name.splitOn "/"
        [("DEVPUSH_GIT_REPO_OWNER", some (parts.headD "")),
         ("DEVPUSH_GIT_REPO_NAME", some (String.intercalate "/" parts.tail))]
      else [])

/-- The final loop of `get_runtime_env_vars`:
for each runtime var, `if value is not None and value != "":
env_vars.setdefault(key, str(value))`. -/
def apply_runtime_vars (l : List (String × Option String))
    (m : List (String × String)) : List (String × String) :=
  l.foldl
    (fun m kv =>
      match kv.2 with
      | some v => if v ≠ "" then dict_setdefault m kv.1 v else m
      | none => m)
    m

/-- Embedding of `DeploymentService.get_runtime_env_vars`
(`app/services/deployment.py`): user-declared `env_vars` first, runtime
variables added via `setdefault`. -/
def get_runtime_env_vars (s : Settings) (p : Project) (d : Deployment) :
    List (String × String) :=
  apply_runtime_vars (runtime_vars s p d) (dict_of d.env_vars)

/-- First runtime-vars entry for a key whose value passes the
`value is not None and value != ""` filter. -/
def first_truthy (l : List (String × Option String)) (k : String) :
    Option String :=
  (l.find? (fun kv =>
    kv.1 == k && match kv.2 with | some v => v ≠ "" | none => false)).bind
    (fun kv => kv.2)

/-- `OBSERVED_STATUSES` from `app/services/reconcile.py`. -/
def observed_statuses : List String :=
  ["running", "exited", "dead", "paused", "not_found"]

/-- How one reconciliation candidate resolved against the container runtime:
no container via the stored id or the label index; `containers.get`/`show`
raised 404; another docker error during inspection; or an inspection giving
the container's `State.Status` and `State.ExitCode`. -/
inductive Resolution
  | missing
  | gone404
  | inspectFailed
  | found (state : String) (exitCode : Option Int)
deriving DecidableEq, Repr

/-- Per-deployment body of `reconcile_deployments`
(`app/services/reconcile.py` lines 98-196): the three missing paths write
`observed_status="not_found"`, `observed_at`, and increment
`observed_missing_count` (NULL as 0); a successful inspection normalizes
unknown statuses to `not_found`, records the exit code, sets
`observed_last_seen_at`, and resets `observed_missing_count` to 0. -/
def reconcile_step (now : Nat) (res : Resolution) (d : Deployment) :
    Deployment :=
  match res with
  | .missing | .gone404 | .inspectFailed =>
    {d with observed_status := some "not_found",
            observed_at := some now,
            observed_missing_count :=
              some ((d.observed_missing_count.getD 0) + 1)}
  | .found st ec =>
    let st' := if observed_statuses.contains st then st else "not_found"
    {d with observed_status := some st',
            observed_exit_code := ec,
            observed_at := some now,
            observed_last_seen_at := some now,
            observed_missing_count := some 0}

/-- Candidate selection of `reconcile_deployments` without an explicit id
list or full scan: `container_status` running/stopped, or
`observed_status == "running"`. -/
def reconcile_select (ds : List Deployment) : List Deployment :=
  ds.filter (fun d =>
    d.container_status == some "running"
    || d.container_status == some "stopped"
    || d.observed_status == some "running")

/-- Change test guarding `_emit_observed_update`: any of the previous
`observed_status` / `observed_exit_code` / `observed_missing_count` values
differ from the new ones. -/
def observed_changed (old new : Deployment) : Bool :=
  old.observed_status != new.observed_status
  || old.observed_exit_code != new.observed_exit_code
  || old.observed_missing_count != new.observed_missing_count

/-- A redis stream event emitted by the engine. -/
structure Event where
  event_type : String
  deployment_id : String
deriving DecidableEq, Repr

/-- Result of a reconciliation tick: updated candidate rows and the emitted
events.  `reconcile_deployments` enqueues no jobs at all, so there is no
action component. -/
structure ReconcileOutcome where
  deployments : List Deployment
  events : List Event
deriving DecidableEq, Repr

/-- Embedding of `reconcile_deployments` (`app/services/reconcile.py`) in
its periodic form (no explicit id list, no full scan).  `resolve` supplies
each candidate's runtime resolution. -/
def reconcile_deployments (now : Nat) (resolve : Deployment → Resolution)
    (ds : List Deployment) : ReconcileOutcome :=
  let selected := reconcile_select ds
  let updated := selected.map (fun d => reconcile_step now (resolve d) d)
  let events := (selected.zip updated).filterMap
    (fun dd =>
      if observed_changed dd.1 dd.2 then
        some ⟨"deployment_observed_update", dd.2.id⟩
      else none)
  ⟨updated, events⟩

/-- The Readiness Monitor's selection query (`app/workers/monitor.py` lines
309-315), exactly as written:
`Deployment.status == "in_progress", Deployment.container_status ==
"running"`. -/
def monitor_select (ds : List Deployment) : List Deployment :=
  ds.filter (fun d =>
    d.status == "in_progress" && d.container_status == some "running")

/-- Modelled from the spec: the probe set the spec describes, "all
deployments currently `status=deploy` with `container_status=running`",
for comparison with `monitor_select`. -/
def monitor_select_spec (ds : List Deployment) : List Deployment :=
  ds.filter (fun d =>
    d.status == "deploy" && d.container_status == some "running")

/-- The failure reason `_check_status` builds for an exited container:
`f"Container exited with code {exit_code}"` for every exit code. -/
def monitor_exit_reason (exitCode : Int) : String :=
  "Container exited with code " ++ toString exitCode

/-- The exited branch of `_check_status` (`app/workers/monitor.py` lines
233-240): the exit code defaults to -1 and a `fail_deployment` job is
enqueued with arguments `(deployment.id, reason)` — the reason lands in the
job's `status` parameter. -/
def check_status_exited (d : Deployment) (exitCode : Option Int) :
    List Action :=
  [Action.enqueue "fail_deployment"
    [d.id, monitor_exit_reason (exitCode.getD (-1))] none]

/-- One Traefik router block as `update_traefik_config` assembles it. -/
structure RouterCfg where
  rule : String
  service : String
  entryPoints : List String
  middlewares : List String
  tlsResolver : Option String
deriving DecidableEq, Repr

/-- One `redirectRegex` middleware block. -/
structure MiddlewareCfg where
  regex : String
  replacement : String
  permanent : Bool
deriving DecidableEq, Repr

/-- The generated dynamic-config document, in insertion order.  The
`services` dict in the source is always left empty. -/
structure TraefikConfig where
  routers : List (String × RouterCfg)
  middlewares : List (String × MiddlewareCfg)
deriving DecidableEq, Repr

/-- An alias row joined to its deployment, as returned by the
`update_traefik_config` query (inner join on `Alias.deployment_id ==
Deployment.id`, so the deployment id is present). -/
structure AliasRow where
  aliasId : String
  subdomain : String
  deploymentId : String
  type : String
  value : String
  conclusion : Option Conclusion
deriving DecidableEq, Repr

/-- A domain row. -/
structure Domain where
  id : String
  hostname : String
  environment_id : String
  type : String
  status : String
deriving DecidableEq, Repr

/-- The alias filter of the `update_traefik_config` query:
`Deployment.conclusion == "succeeded"` or the deployment id is in the
explicit include set. -/
def alias_qualifies (includeIds : List String) (r : AliasRow) : Bool :=
  r.conclusion == some Conclusion.succeeded
  || includeIds.contains r.deploymentId

/-- Router emitted for one qualifying alias. -/
def alias_router (s : Settings) (a : AliasRow) : RouterCfg :=
  { rule := "Host(`" ++ a.subdomain ++ "." ++ s.deploy_domain ++ "`)"
    service := "deployment-" ++ a.deploymentId ++ "@docker"
    entryPoints := if s.url_scheme = "https" then ["web", "websecure"]
                   else ["web"]
    middlewares := []
    tlsResolver := if s.url_scheme = "https" then some "le" else none }

/-- Routers and middlewares emitted for one active domain: resolved through
the environment-id alias; `route` domains get a plain router, redirect
domains (301/302/307/308) get a router through a `redirectRegex`
middleware, permanent for 301/308. -/
def domain_entries (s : Settings) (aliases : List AliasRow) (dom : Domain) :
    List (String × RouterCfg) × List (String × MiddlewareCfg) :=
  match aliases.find? (fun a =>
      a.type == "environment_id" && a.value == dom.environment_id) with
  | none => ([], [])
  | some envAlias =>
    if dom.type = "route" then
      ([("router-domain-" ++ dom.id,
         { rule := "Host(`" ++ dom.hostname ++ "`)"
           service := "deployment-" ++ envAlias.deploymentId ++ "@docker"
           entryPoints := if s.url_scheme = "https" then ["web", "websecure"]
                          else ["web"]
           middlewares := []
           tlsResolver := if s.url_scheme = "https" then some "lehttp"
                          else none })], [])
    else if dom.type = "301" ∨ dom.type = "302" ∨ dom.type = "307"
        ∨ dom.type = "308" then
      let mwName := "redirect-" ++ dom.id
      ([("router-redirect-" ++ dom.id,
         { rule := "Host(`" ++ dom.hostname ++ "`)"
           service := "noop@internal"
           entryPoints := if s.url_scheme = "https" then ["web", "websecure"]
                          else ["web"]
           middlewares := [mwName]
           tlsResolver := if s.url_scheme = "https" then some "lehttp"
                          else none })],
       [(mwName,
         { regex := "^https?://" ++ dom.hostname ++ "/(.*)"
           replacement := "https://" ++ envAlias.subdomain ++ "."
             ++ s.deploy_domain ++ "/$1"
           permanent := dom.type = "301" ∨ dom.type = "308" })])
    else ([], [])

/-- Deterministic rendering of a router block, standing in for the
`yaml.safe_dump(..., sort_keys=False)` serialization (which is a pure
function of the insertion-ordered document). -/
def render_router (nr : String × RouterCfg) : String :=
  nr.1 ++ ": rule=" ++ nr.2.rule ++ " service=" ++ nr.2.service
    ++ " entryPoints=" ++ String.intercalate "," nr.2.entryPoints
    ++ " middlewares=" ++ String.intercalate "," nr.2.middlewares
    ++ " tls=" ++ (nr.2.tlsResolver.getD "-")

/-- Deterministic rendering of one middleware block. -/
def render_middleware (nm : String × MiddlewareCfg) : String :=
  nm.1 ++ ": redirectRegex regex=" ++ nm.2.regex
    ++ " replacement=" ++ nm.2.replacement
    ++ " permanent=" ++ (if nm.2.permanent then "true" else "false")

/-- Deterministic rendering of the whole document. -/
def render_config (c : TraefikConfig) : String :=
  String.intercalate "\n"
    (c.routers.map render_router ++ c.middlewares.map render_middleware)

/-- Embedding of `DeploymentService.update_traefik_config`
(`app/services/deployment.py`) as a transformer of the project's config-file
state (`none` = no file).  The early return removes the file when there are
no qualifying aliases and no active domains; the second emptiness check
removes it when the assembled document is empty; otherwise the rendered
document is written atomically.  The previous file content is never read,
only removed or replaced. -/
def update_traefik_config (s : Settings) (includeIds : List String)
    (rows : List AliasRow) (allDomains : List Domain)
    (_prev : Option String) : Option String :=
  let aliases := rows.filter (alias_qualifies includeIds)
  let domains := allDomains.filter (fun dom => dom.status == "active")
  if aliases.isEmpty ∧ domains.isEmpty then none
  else
    let aliasRouters := aliases.map
      (fun a => ("router-alias-" ++ a.aliasId, alias_router s a))
    let domParts := domains.map (domain_entries s aliases)
    let routers := aliasRouters ++ (domParts.map Prod.fst).flatten
    let middlewares := (domParts.map Prod.snd).flatten
    if routers.isEmpty ∧ middlewares.isEmpty then none
    else some (render_config ⟨routers, middlewares⟩)

/-- Sample settings used by witness instances. -/
def settings0 : Settings :=
  { deploy_domain := "devpush.app"
    url_scheme := "https"
    server_ip := some "203.0.113.7"
    service_uid := 1000
    service_gid := 1000
    container_delete_grace_seconds := 300 }

/-- Sample project used by witness instances. -/
def project0 : Project :=
  { id := "proj1"
    slug := "myapp"
    team_id := "team1"
    environments := [⟨"prod", "production"⟩, ⟨"env2", "staging"⟩] }

/-- Sample mid-deploy deployment used by witness instances: `status=deploy`,
running container, not concluded. -/
def deployment0 : Deployment :=
  { id := "dep1"
    project_id := "proj1"
    environment_id := "prod"
    branch := "main"
    commit_sha := "abc1234"
    created_at := "2026-01-01T00:00:00"
    url := "https://myapp.devpush.app"
    hostname := "myapp.devpush.app"
    repo_provider := "github"
    repo_base_url := "https://github.com"
    repo_full_name := "alice/myapp"
    commit_meta := some ⟨"alice", "initial commit"⟩
    env_vars := []
    status := "deploy"
    conclusion := none
    error := none
    container_id := some "c1"
    container_status := some "running"
    job_id := some "job1"
    observed_status := none
    observed_exit_code := none
    observed_at := none
    observed_last_seen_at := none
    observed_missing_count := none }

/-- Helper: a deployment whose `conclusion` column is truthy makes
`fail_deployment` return without touching the row or the container. -/
theorem fail_deployment_noop_of_concluded (s : Settings) (d : Deployment)
    (stage : String) (reason : Option String) (docker : DockerGet)
    (h : d.conclusion.isSome) :
    fail_deployment s d stage reason docker = (d, []) := by
  by_cases h1 : d.conclusion = some Conclusion.canceled
  · simp [fail_deployment, h1]
  · simp [fail_deployment, h1, h]

/-- Helper: whatever branch `fail_deployment` takes, the resulting row is
concluded. -/
theorem fail_deployment_conclusion_isSome (s : Settings) (d : Deployment)
    (stage : String) (reason : Option String) (docker : DockerGet) :
    ((fail_deployment s d stage reason docker).1).conclusion.isSome := by
  by_cases h1 : d.conclusion = some Conclusion.canceled
  · simp [fail_deployment, h1]
  · by_cases h2 : d.conclusion.isSome
    · simp [fail_deployment, h1, h2]
    · simp [fail_deployment, h1, h2]

/-- C1: the fail path is idempotent on concluded deployments — when the
conclusion is already non-null (succeeded, failed or canceled),
`fail_deployment` returns the row unchanged and performs no container stop
or deletion enqueue; and a second call after any first call is always a
no-op, so two calls change state at most once. -/
theorem fail_deployment_concluded_noop :
    (∀ (s : Settings) (d : Deployment) (stage : String)
       (reason : Option String) (docker : DockerGet) (c : Conclusion),
       d.conclusion = some c →
       fail_deployment s d stage reason docker = (d, []))
    ∧ (∀ (s : Settings) (d : Deployment) (stage stage' : String)
         (reason reason' : Option String) (docker docker' : DockerGet),
         fail_deployment s (fail_deployment s d stage reason docker).1
             stage' reason' docker'
           = ((fail_deployment s d stage reason docker).1, [])) := by
  constructor
  · intro s d stage reason docker c h
    exact fail_deployment_noop_of_concluded s d stage reason docker
      (by simp [h])
  · intro s d stage stage' reason reason' docker docker'
    exact fail_deployment_noop_of_concluded s _ stage' reason' docker'
      (fail_deployment_conclusion_isSome s d stage reason docker)

/-- Witness for C1 at a concrete canceled deployment. -/
theorem fail_deployment_concluded_noop_witness :
    fail_deployment settings0
        {deployment0 with conclusion := some Conclusion.canceled}
        "deploy" (some "boom") DockerGet.found
      = ({deployment0 with conclusion := some Conclusion.canceled}, []) :=
  fail_deployment_concluded_noop.1 settings0
    {deployment0 with conclusion := some Conclusion.canceled}
    "deploy" (some "boom") DockerGet.found Conclusion.canceled rfl

/-- C9: finalize is a no-op on a canceled deployment — it returns before
creating or updating any alias, before touching the routing config, with
the row (status and conclusion included) unchanged, so a cancel that won
the race is never overwritten to succeeded. -/
theorem finalize_skips_canceled :
    ∀ (s : Settings) (p : Project) (d : Deployment),
      d.conclusion = some Conclusion.canceled →
      finalize_deployment s p d = ⟨d, [], false, []⟩ := by
  intro s p d h
  simp [finalize_deployment, h]

/-- Witness for C9 at a concrete canceled deployment. -/
theorem finalize_skips_canceled_witness :
    finalize_deployment settings0 project0
        {deployment0 with conclusion := some Conclusion.canceled}
      = ⟨{deployment0 with conclusion := some Conclusion.canceled},
         [], false, []⟩ :=
  finalize_skips_canceled settings0 project0
    {deployment0 with conclusion := some Conclusion.canceled} rfl

/-- C5: the Monitor's selection query filters on
`status == "in_progress"`, a value no code path ever assigns (the lifecycle
writes prepare/deploy/fail/completed), so a mid-deploy deployment with a
running container — exactly what the spec says is probed — is never
selected, while the spec's own filter selects it. -/
theorem monitor_select_misses_deploying :
    monitor_select [deployment0] = []
    ∧ monitor_select_spec [deployment0] = [deployment0]
    ∧ deployment0.status = "deploy"
    ∧ deployment0.container_status = some "running" :=
  ⟨rfl, rfl, rfl, rfl⟩

/-- C6 counterexample: the code maps exit code 137 to the generic
"Container exited with code 137", not to "killed, likely out-of-memory",
and exit code 0 likewise gets the generic message. -/
theorem monitor_exit_reason_137_generic :
    monitor_exit_reason 137 = "Container exited with code 137"
    ∧ monitor_exit_reason 137 ≠ "killed, likely out-of-memory"
    ∧ monitor_exit_reason 0
        ≠ "exited unexpectedly, expected long-running process" :=
  ⟨rfl, by decide, by decide⟩

/-- C6 amended: every exit code N is mapped uniformly to
"Container exited with code N"; the Monitor enqueues `fail_deployment` with
`(deployment.id, reason)`, and the fail path then concludes a
not-yet-concluded deployment as completed/failed storing the reason text in
the error's `status` field with the generic message "Deployment failed". -/
theorem monitor_exit_reason_uniform :
    ∀ (code : Int) (s : Settings) (d : Deployment) (docker : DockerGet),
      monitor_exit_reason code
          = "Container exited with code " ++ toString code
      ∧ check_status_exited d (some code)
          = [Action.enqueue "fail_deployment"
              [d.id, monitor_exit_reason code] none]
      ∧ (d.conclusion = none →
          (fail_deployment s d (monitor_exit_reason code) none docker).1.status
              = "completed"
          ∧ (fail_deployment s d (monitor_exit_reason code) none
                docker).1.conclusion = some Conclusion.failed
          ∧ (fail_deployment s d (monitor_exit_reason code) none
                docker).1.error
              = some ⟨monitor_exit_reason code, "Deployment failed"⟩) := by
  intro code s d docker
  refine ⟨rfl, rfl, ?_⟩
  intro h
  refine ⟨?_, ?_, ?_⟩ <;> simp [fail_deployment, h]

/-- Witness for C6's amended claim at exit code 137 on a concrete
mid-deploy deployment. -/
theorem monitor_exit_reason_uniform_witness :
    monitor_exit_reason 137 = "Container exited with code " ++ toString (137 : Int)
    ∧ (fail_deployment settings0 deployment0 (monitor_exit_reason 137) none
        DockerGet.found).1.conclusion = some Conclusion.failed :=
  ⟨(monitor_exit_reason_uniform 137 settings0 deployment0 DockerGet.found).1,
   ((monitor_exit_reason_uniform 137 settings0 deployment0
      DockerGet.found).2.2 rfl).2.1⟩

/-- C4: per reconciliation tick, a candidate whose container does not
resolve (or whose inspection reports it gone) gets
`observed_status = not_found` and `observed_missing_count` incremented by
exactly 1 (NULL read as 0) — so consecutive missing ticks strictly increase
it — while a found-and-inspected container resets the counter to 0 and
stamps `observed_last_seen_at`. -/
theorem reconcile_missing_counter :
    ∀ (now : Nat) (res : Resolution) (d : Deployment),
      (reconcile_step now res d).observed_missing_count
        = (match res with
           | .found _ _ => some 0
           | _ => some (d.observed_missing_count.getD 0 + 1))
      ∧ (reconcile_step now res d).observed_status
        = (match res with
           | .found st _ =>
             some (if observed_statuses.contains st then st else "not_found")
           | _ => some "not_found")
      ∧ (reconcile_step now res d).observed_last_seen_at
        = (match res with
           | .found _ _ => some now
           | _ => d.observed_last_seen_at)
      ∧ d.observed_missing_count.getD 0
          < (reconcile_step now Resolution.missing d).observed_missing_count.getD 0 := by
  intro now res d
  refine ⟨?_, ?_, ?_, ?_⟩
  · cases res <;> rfl
  · cases res <;> rfl
  · cases res <;> rfl
  · simp [reconcile_step]

/-- An alias with a NULL `deployment_id` but a previous deployment; such rows
are admitted by the schema (the cleanup task filters
`Alias.deployment_id.isnot(None)` and rollback emits
`alias.previous_deployment_id or ""`). -/
def aliasNoCurrent : Alias :=
  ⟨"a1", "myapp", none, some "d1", "environment", some "prod", some "prod"⟩

/-- C2 counterexample: on an alias whose `previous_deployment_id` is
non-null but whose `deployment_id` is NULL, the first rollback succeeds and
swaps, but the second raises "No previous deployment to roll back to."
instead of restoring the original pair. -/
theorem rollback_no_current_not_involutive :
    rollback (some aliasNoCurrent)
      = Except.ok {aliasNoCurrent with deployment_id := some "d1",
                                       previous_deployment_id := none}
    ∧ rollback (some {aliasNoCurrent with deployment_id := some "d1",
                                          previous_deployment_id := none})
      = Except.error "No previous deployment to roll back to." :=
  ⟨rfl, rfl⟩

/-- C2 amended: rollback is an involution on every alias whose
`deployment_id` and `previous_deployment_id` are both non-null and
non-empty — one application swaps the pair and a second application
restores the original alias exactly. -/
theorem rollback_involution :
    ∀ (a : Alias) (dep prev : String),
      a.deployment_id = some dep → dep ≠ "" →
      a.previous_deployment_id = some prev → prev ≠ "" →
      rollback (some a)
        = Except.ok {a with deployment_id := some prev,
                            previous_deployment_id := some dep}
      ∧ rollback (some {a with deployment_id := some prev,
                               previous_deployment_id := some dep})
        = Except.ok a := by
  intro a dep prev h1 h2 h3 h4
  rcases a with ⟨i, sub, depid, previd, ty, val, envid⟩
  dsimp only at h1 h3
  subst h1; subst h3
  constructor
  · simp [rollback, h4]
  · simp [rollback, h2]

/-- Witness for C2's amended claim at a concrete alias. -/
theorem rollback_involution_witness :
    rollback (some ⟨"a1", "myapp", some "d2", some "d1", "environment",
                    some "prod", some "prod"⟩)
      = Except.ok ⟨"a1", "myapp", some "d1", some "d2", "environment",
                   some "prod", some "prod"⟩
    ∧ rollback (some ⟨"a1", "myapp", some "d1", some "d2", "environment",
                      some "prod", some "prod"⟩)
      = Except.ok ⟨"a1", "myapp", some "d2", some "d1", "environment",
                   some "prod", some "prod"⟩ :=
  rollback_involution
    ⟨"a1", "myapp", some "d2", some "d1", "environment", some "prod",
     some "prod"⟩
    "d2" "d1" rfl (by decide) rfl (by decide)

/-- Helper: the abort actions contain only `abortJob` actions. -/
theorem mem_cancel_abort_actions {x : Action} {d : Deployment} {ja : Bool}
    (h : x ∈ cancel_abort_actions d ja) : ∃ j, x = Action.abortJob j := by
  unfold cancel_abort_actions at h
  rcases hj : d.job_id with _ | j <;> rw [hj] at h
  · simp at h
  · dsimp only at h
    rcases Decidable.em (j ≠ "" ∧ ja = true) with hc | hc
    · rw [if_pos hc] at h
      exact ⟨j, List.mem_singleton.mp h⟩
    · rw [if_neg hc] at h
      simp at h

/-- C3: `cancel` raises (leaving the row untouched) when the deployment is
already in finalize/fail/completed or concluded; otherwise it marks the
deployment completed/canceled, and when a container exists whose status is
not stopped/removed it stops the container and enqueues a deferred
`delete_container` job with the configured grace period — never an inline
deletion. -/
theorem cancel_guard_and_cleanup :
    ∀ (s : Settings) (d : Deployment) (jobActive : Bool)
      (docker : DockerGet),
      ((d.status = "finalize" ∨ d.status = "fail" ∨ d.status = "completed"
          ∨ d.conclusion.isSome) →
        cancel s d jobActive docker
          = ⟨some "Deployment is already finalizing, failing, or completed",
             d, []⟩)
      ∧ (¬(d.status = "finalize" ∨ d.status = "fail"
            ∨ d.status = "completed" ∨ d.conclusion.isSome) →
          (cancel s d jobActive docker).raised = none
          ∧ (cancel s d jobActive docker).deployment.status = "completed"
          ∧ (cancel s d jobActive docker).deployment.conclusion
              = some Conclusion.canceled
          ∧ (∀ c, Action.deleteNow c ∉ (cancel s d jobActive docker).actions)
          ∧ (∀ cid, d.container_id = some cid → cid ≠ "" →
              d.container_status ≠ some "stopped" →
              d.container_status ≠ some "removed" →
              docker = DockerGet.found →
              Action.stop cid ∈ (cancel s d jobActive docker).actions
              ∧ Action.enqueue "delete_container" [d.id]
                  (some s.container_delete_grace_seconds)
                  ∈ (cancel s d jobActive docker).actions)) := by
  intro s d ja docker
  constructor
  · intro h
    unfold cancel
    rw [if_pos h]
  · intro h
    unfold cancel
    rw [if_neg h]
    rcases hcid : d.container_id with _ | cid
    · refine ⟨rfl, rfl, rfl, ?_, ?_⟩
      · intro c hc
        obtain ⟨j, hj⟩ := mem_cancel_abort_actions hc
        cases hj
      · intro cid hcid'
        cases hcid'
    · dsimp only
      by_cases hcond : cid ≠ "" ∧ d.container_status ≠ some "removed"
          ∧ d.container_status ≠ some "stopped"
      · rw [if_pos hcond]
        cases docker
        · refine ⟨rfl, rfl, rfl, ?_, ?_⟩
          · intro c hc
            rcases List.mem_append.mp hc with hl | hr
            · obtain ⟨j, hj⟩ := mem_cancel_abort_actions hl
              cases hj
            · simp at hr
          · intro cid' hcid' hne hst hrm hdock
            cases hcid'
            constructor
            · exact List.mem_append.mpr (Or.inr (by simp))
            · exact List.mem_append.mpr (Or.inr (by simp))
        · refine ⟨rfl, rfl, rfl, ?_, ?_⟩
          · intro c hc
            obtain ⟨j, hj⟩ := mem_cancel_abort_actions hc
            cases hj
          · intro cid' hcid' hne hst hrm hdock
            cases hdock
        · refine ⟨rfl, rfl, rfl, ?_, ?_⟩
          · intro c hc
            obtain ⟨j, hj⟩ := mem_cancel_abort_actions hc
            cases hj
          · intro cid' hcid' hne hst hrm hdock
            cases hdock
      · rw [if_neg hcond]
        refine ⟨rfl, rfl, rfl, ?_, ?_⟩
        · intro c hc
          obtain ⟨j, hj⟩ := mem_cancel_abort_actions hc
          cases hj
        · intro cid' hcid' hne hst hrm hdock
          cases hcid'
          exact absurd ⟨hne, hrm, hst⟩ hcond

/-- Witness for C3: the guard fires on a concrete completed deployment, and
on a concrete mid-deploy deployment cancel concludes it canceled, stops the
container, and schedules (not performs) the deletion. -/
theorem cancel_guard_and_cleanup_witness :
    cancel settings0
        {deployment0 with status := "completed",
                          conclusion := some Conclusion.failed} true
        DockerGet.found
      = ⟨some "Deployment is already finalizing, failing, or completed",
         {deployment0 with status := "completed",
                           conclusion := some Conclusion.failed}, []⟩
    ∧ (cancel settings0 deployment0 true DockerGet.found).deployment.status
        = "completed"
    ∧ (cancel settings0 deployment0 true DockerGet.found).deployment.conclusion
        = some Conclusion.canceled
    ∧ Action.stop "c1"
        ∈ (cancel settings0 deployment0 true DockerGet.found).actions
    ∧ Action.enqueue "delete_container" ["dep1"] (some 300)
        ∈ (cancel settings0 deployment0 true DockerGet.found).actions := by
  have hguard := (cancel_guard_and_cleanup settings0
    {deployment0 with status := "completed",
                      conclusion := some Conclusion.failed} true
    DockerGet.found).1 (Or.inr (Or.inr (Or.inl rfl)))
  have heff := (cancel_guard_and_cleanup settings0 deployment0 true
    DockerGet.found).2 (by decide)
  have hmem := heff.2.2.2.2 "c1" rfl (by decide) (by decide) (by decide) rfl
  exact ⟨hguard, heff.2.1, heff.2.2.1, hmem.1, hmem.2⟩

/-- C7: regenerating the routing config is idempotent — with unchanged
aliases, domains and settings the produced file state (hence its byte
content) is identical however often it is rerun — and with zero qualifying
aliases and zero active domains the config file ends up removed (`none`)
regardless of what was on disk. -/
theorem update_traefik_config_idempotent :
    ∀ (s : Settings) (includeIds : List String) (rows : List AliasRow)
      (doms : List Domain) (prev : Option String),
      update_traefik_config s includeIds rows doms
          (update_traefik_config s includeIds rows doms prev)
        = update_traefik_config s includeIds rows doms prev
      ∧ ((rows.filter (alias_qualifies includeIds)).isEmpty = true →
          (doms.filter (fun dom => dom.status == "active")).isEmpty = true →
          update_traefik_config s includeIds rows doms prev = none) := by
  intro s ids rows doms prev
  constructor
  · rfl
  · intro h1 h2
    simp [update_traefik_config, h1, h2]

/-- Witness for C7: a project with one not-yet-succeeded alias and one
inactive domain has its stale config file removed. -/
theorem update_traefik_config_idempotent_witness :
    update_traefik_config settings0 []
        [⟨"a1", "myapp", "dep0", "environment", "prod", none⟩]
        [⟨"dom1", "example.com", "prod", "route", "pending"⟩]
        (some "stale")
      = none :=
  (update_traefik_config_idempotent settings0 []
      [⟨"a1", "myapp", "dep0", "environment", "prod", none⟩]
      [⟨"dom1", "example.com", "prod", "route", "pending"⟩]
      (some "stale")).2 rfl rfl

/-- Helper: one reconcile step never changes `status`. -/
theorem reconcile_step_status (now : Nat) (res : Resolution)
    (d : Deployment) : (reconcile_step now res d).status = d.status := by
  cases res <;> rfl

/-- Helper: one reconcile step never changes `conclusion`. -/
theorem reconcile_step_conclusion (now : Nat) (res : Resolution)
    (d : Deployment) :
    (reconcile_step now res d).conclusion = d.conclusion := by
  cases res <;> rfl

/-- Helper: one reconcile step never changes `error`. -/
theorem reconcile_step_error (now : Nat) (res : Resolution)
    (d : Deployment) : (reconcile_step now res d).error = d.error := by
  cases res <;> rfl

/-- Helper: one reconcile step never changes `container_id`. -/
theorem reconcile_step_container_id (now : Nat) (res : Resolution)
    (d : Deployment) :
    (reconcile_step now res d).container_id = d.container_id := by
  cases res <;> rfl

/-- Helper: one reconcile step never changes `container_status`. -/
theorem reconcile_step_container_status (now : Nat) (res : Resolution)
    (d : Deployment) :
    (reconcile_step now res d).container_status = d.container_status := by
  cases res <;> rfl

/-- C8: a reconciliation tick only writes observed fields — across the
processed candidates the `status`, `conclusion`, `error`, `container_id`
and `container_status` columns are untouched, and every emitted event is a
`deployment_observed_update` (no fail or finalize transition is ever
enqueued). -/
theorem reconcile_only_observed :
    ∀ (now : Nat) (resolve : Deployment → Resolution)
      (ds : List Deployment),
      (reconcile_deployments now resolve ds).deployments.map Deployment.status
        = (reconcile_select ds).map Deployment.status
      ∧ (reconcile_deployments now resolve ds).deployments.map
            Deployment.conclusion
        = (reconcile_select ds).map Deployment.conclusion
      ∧ (reconcile_deployments now resolve ds).deployments.map
            Deployment.error
        = (reconcile_select ds).map Deployment.error
      ∧ (reconcile_deployments now resolve ds).deployments.map
            Deployment.container_id
        = (reconcile_select ds).map Deployment.container_id
      ∧ (reconcile_deployments now resolve ds).deployments.map
            Deployment.container_status
        = (reconcile_select ds).map Deployment.container_status
      ∧ ((reconcile_deployments now resolve ds).events.all
          (fun e => e.event_type == "deployment_observed_update")) = true := by
  intro now resolve ds
  refine ⟨?_, ?_, ?_, ?_, ?_, ?_⟩
  · rw [reconcile_deployments, List.map_map]
    exact List.map_congr_left
      (fun d _ => reconcile_step_status now (resolve d) d)
  · rw [reconcile_deployments, List.map_map]
    exact List.map_congr_left
      (fun d _ => reconcile_step_conclusion now (resolve d) d)
  · rw [reconcile_deployments, List.map_map]
    exact List.map_congr_left
      (fun d _ => reconcile_step_error now (resolve d) d)
  · rw [reconcile_deployments, List.map_map]
    exact List.map_congr_left
      (fun d _ => reconcile_step_container_id now (resolve d) d)
  · rw [reconcile_deployments, List.map_map]
    exact List.map_congr_left
      (fun d _ => reconcile_step_container_status now (resolve d) d)
  · rw [List.all_eq_true]
    intro e he
    rw [reconcile_deployments] at he
    simp only [List.mem_filterMap] at he
    obtain ⟨dd, -, hdd⟩ := he
    by_cases hch : observed_changed dd.1 dd.2
    · rw [if_pos hch] at hdd
      cases hdd
      rfl
    · rw [if_neg hch] at hdd
      cases hdd

/-- Helper: dict lookup distributes over append, first dict wins. -/
theorem dict_get_append (m l : List (String × String)) (k : String) :
    dict_get (m ++ l) k = (dict_get m k).or (dict_get l k) := by
  unfold dict_get
  rw [List.find?_append]
  cases m.find? (fun kv => kv.1 == k) <;> simp

/-- Helper: a key is absent from a dict exactly when no entry carries it. -/
theorem dict_get_eq_none_iff (m : List (String × String)) (k : String) :
    dict_get m k = none ↔ m.any (fun kv => kv.1 == k) = false := by
  unfold dict_get
  rw [Option.map_eq_none', List.find?_eq_none, List.any_eq_false]

/-- Helper: the setdefault loop of `get_runtime_env_vars` never overwrites a
key that is already present. -/
theorem apply_runtime_vars_preserves :
    ∀ (l : List (String × Option String)) (m : List (String × String))
      (k v : String), dict_get m k = some v →
      dict_get (apply_runtime_vars l m) k = some v := by
  intro l
  induction l with
  | nil => intro m k v h; exact h
  | cons kv t ih =>
    intro m k v h
    rcases kv with ⟨k', w?⟩
    simp only [apply_runtime_vars, List.foldl_cons] at ih ⊢
    apply ih
    cases w? with
    | none => exact h
    | some w =>
      dsimp only
      by_cases hw : w ≠ ""
      · rw [if_pos hw]
        unfold dict_setdefault
        by_cases ha : m.any (fun kv => kv.1 == k') = true
        · rw [if_pos ha]
          exact h
        · rw [if_neg ha]
          rw [dict_get_append, h]
          rfl
      · rw [if_neg hw]
        exact h

/-- Helper: when a key is absent from the initial dict, the setdefault loop
installs the first runtime entry for it whose value is non-None and
non-empty. -/
theorem apply_runtime_vars_absent :
    ∀ (l : List (String × Option String)) (m : List (String × String))
      (k : String), dict_get m k = none →
      dict_get (apply_runtime_vars l m) k = first_truthy l k := by
  intro l
  induction l with
  | nil =>
    intro m k h
    simpa [first_truthy] using h
  | cons kv t ih =>
    intro m k h
    rcases kv with ⟨k', w?⟩
    simp only [apply_runtime_vars, List.foldl_cons] at ih ⊢
    cases w? with
    | none =>
      have hskip : first_truthy ((k', none) :: t) k = first_truthy t k := by
        simp [first_truthy, List.find?_cons]
      rw [hskip]
      exact ih m k h
    | some w =>
      by_cases hw : w = ""
      · subst hw
        have hskip : first_truthy ((k', some "") :: t) k
            = first_truthy t k := by
          simp [first_truthy, List.find?_cons]
        rw [hskip]
        dsimp only
        rw [if_neg (by simp)]
        exact ih m k h
      · by_cases hk : k' = k
        · subst hk
          have hany : m.any (fun kv => kv.1 == k') = false :=
            (dict_get_eq_none_iff m k').mp h
          dsimp only
          rw [if_pos hw]
          unfold dict_setdefault
          rw [if_neg (by rw [hany]; exact Bool.false_ne_true)]
          have hm' : dict_get (m ++ [(k', w)]) k' = some w := by
            rw [dict_get_append, h]
            simp [dict_get]
          have hhead : first_truthy ((k', some w) :: t) k' = some w := by
            simp [first_truthy, List.find?_cons, hw]
          rw [hhead]
          exact apply_runtime_vars_preserves t _ k' w hm'
        · have hbeq : (k' == k) = false := by
            exact beq_eq_false_iff_ne.mpr hk
          have hskip : first_truthy ((k', some w) :: t) k
              = first_truthy t k := by
            simp [first_truthy, List.find?_cons, hbeq]
          rw [hskip]
          dsimp only
          rw [if_pos hw]
          unfold dict_setdefault
          by_cases ha : m.any (fun kv => kv.1 == k') = true
          · rw [if_pos ha]
            exact ih m k h
          · rw [if_neg ha]
            apply ih
            rw [dict_get_append, h]
            simp [dict_get, hbeq]

/-- C10: user-declared environment variables shadow injected runtime
variables — the map starts from the deployment's `env_vars` (whose entries
survive unchanged), and a runtime key is added only when absent and only
with a non-None, non-empty value (the first such entry); in particular a
user-declared `DEVPUSH_URL` keeps the user's value. -/
theorem get_runtime_env_vars_shadowing :
    ∀ (s : Settings) (p : Project) (d : Deployment) (k : String),
      (∀ v, dict_get (dict_of d.env_vars) k = some v →
        dict_get (get_runtime_env_vars s p d) k = some v)
      ∧ (dict_get (dict_of d.env_vars) k = none →
        dict_get (get_runtime_env_vars s p d) k
          = first_truthy (runtime_vars s p d) k) := by
  intro s p d k
  constructor
  · intro v h
    exact apply_runtime_vars_preserves _ _ _ _ h
  · intro h
    exact apply_runtime_vars_absent _ _ _ h

/-- Witness for C10: a deployment declaring its own `DEVPUSH_URL` keeps the
user's value in the produced environment map. -/
theorem get_runtime_env_vars_shadowing_witness :
    dict_get
        (get_runtime_env_vars settings0 project0
          {deployment0 with
            env_vars := [("DEVPUSH_URL", "https://user.example")]})
        "DEVPUSH_URL"
      = some "https://user.example" :=
  (get_runtime_env_vars_shadowing settings0 project0
      {deployment0 with
        env_vars := [("DEVPUSH_URL", "https://user.example")]}
      "DEVPUSH_URL").1 "https://user.example" rfl

end Devpush
